import Mathlib

/-!
A shallow embedding of `faktory_exporter.go`.

The exporter issues the Faktory `INFO` command, picks numbers out of the
decoded JSON document with Go type assertions and stores them in Prometheus
metrics.  The embedding below follows the source function by function:

* `Any` is Go's `interface{}` as `encoding/json` produces it, `GoMap` is
  `map[string]interface{}`;
* `Value` / `MetricVec` are the Prometheus client's scalar and label-keyed
  metrics (library code, modelled by what `Set`, `Inc`, `Reset`,
  `WithLabelValues`, `Describe` and `Collect` do);
* `New`, `Describe`, `Collect`, `reset`, `scrape` and `Main` are the functions
  of the source, with explicit state passing.  A run-time panic of an
  unchecked type assertion is an explicit outcome, `Completion.panicked`.
-/

namespace FaktoryExporter

/-! ## Go values -/

/-- Go `float64`, by its value.  The exporter only stores, copies and
increments these numbers; a finite `float64` is a rational, and JSON numbers
decode to finite values.  Arithmetic on them rounds, see `float64Add`. -/
abbrev Float64 := ℚ

/-- Round to the nearest integer, a tie to the even one. -/
def roundHalfEven (q : ℚ) : ℤ :=
  if 2 * (q - ⌊q⌋) < 1 then ⌊q⌋
  else if 1 < 2 * (q - ⌊q⌋) then ⌊q⌋ + 1
  else if ⌊q⌋ % 2 = 0 then ⌊q⌋ else ⌊q⌋ + 1

/-- Binary exponent of the unit in the last place of the binary64 numbers
next to `q`: 52 below the binary exponent of `q`, which is taken no lower
than -1022 (the subnormal range). -/
def ulpExponent (q : ℚ) : ℤ := max (Int.log 2 |q|) (-1022) - 52

/-- IEEE 754 binary64 rounding of a real result, to nearest with ties to
even: the multiple of the unit in the last place nearest to `q`.  (Overflow
to infinity is not represented; adding one to a finite number cannot
overflow.) -/
def roundFloat64 (q : ℚ) : Float64 :=
  roundHalfEven (q / 2 ^ ulpExponent q) * 2 ^ ulpExponent q

/-- Go `a + b` on `float64`: the exact sum, rounded. -/
def float64Add (a b : Float64) : Float64 := roundFloat64 (a + b)

/-- Go `interface{}` holding what `encoding/json` decodes into it: `nil`,
`bool`, `float64`, `string`, `[]interface{}` or `map[string]interface{}`. -/
inductive Any where
  | null
  | bool (b : Bool)
  | float64 (f : Float64)
  | string (s : String)
  | slice (xs : List Any)
  | map (m : List (String × Any))

/-- Go `map[string]interface{}` as an association list.  A Go map has one
entry per key; `GoMap.index` reads the first entry of a key. -/
abbrev GoMap := List (String × Any)

/-- Go map indexing `m[k]`: the stored value, or the zero value (the nil
interface) when the key is absent. -/
def GoMap.index (m : GoMap) (k : String) : Any :=
  (List.lookup k m).getD Any.null

/-- Type assertion `x.(float64)`: `none` when the dynamic type is not
`float64` (the comma-ok form then yields `ok = false`, the plain form
panics). -/
def Any.assertFloat64 : Any → Option Float64
  | Any.float64 f => some f
  | _ => none

/-- Type assertion `x.(map[string]interface{})`: `none` when the dynamic type
is not a map (the comma-ok form then yields `ok = false`, the plain form
panics). -/
def Any.assertMap : Any → Option GoMap
  | Any.map m => some m
  | _ => none

/-! ## Prometheus client metrics -/

/-- Descriptor of a metric: fully-qualified name, help text and the names of
its variable labels. -/
structure Desc where
  fqName : String
  help : String
  variableLabels : List String
  deriving DecidableEq, Repr

/-- One exposed metric value: metric name, label pairs and value. -/
structure Sample where
  name : String
  labels : List (String × String)
  value : Float64
  deriving DecidableEq, Repr

/-- The `Namespace`, `Subsystem`, `Name` and `Help` fields of
`prometheus.GaugeOpts` / `prometheus.CounterOpts`. -/
structure Opts where
  Namespace : String := ""
  Subsystem : String := ""
  Name : String
  Help : String

/-- Model of `prometheus.BuildFQName`: the non-empty parts joined by an
underscore, empty when the name is empty. -/
def BuildFQName (ns subsystem name : String) : String :=
  if name = "" then ""
  else if ns ≠ "" ∧ subsystem ≠ "" then ns ++ "_" ++ subsystem ++ "_" ++ name
  else if ns ≠ "" then ns ++ "_" ++ name
  else if subsystem ≠ "" then subsystem ++ "_" ++ name
  else name

/-- A scalar metric of the Prometheus client (the common implementation of
`prometheus.Gauge` and `prometheus.Counter`): its descriptor and its current
value. -/
structure Value where
  desc : Desc
  val : Float64
  deriving DecidableEq, Repr

abbrev Gauge := Value
abbrev Counter := Value

/-- Model of `prometheus.NewGauge`: a metric described by `opts`, value 0. -/
def NewGauge (opts : Opts) : Gauge :=
  { desc := { fqName := BuildFQName opts.Namespace opts.Subsystem opts.Name,
              help := opts.Help, variableLabels := [] },
    val := 0 }

/-- Model of `prometheus.NewCounter`: a metric described by `opts`, value 0. -/
def NewCounter (opts : Opts) : Counter :=
  { desc := { fqName := BuildFQName opts.Namespace opts.Subsystem opts.Name,
              help := opts.Help, variableLabels := [] },
    val := 0 }

/-- Method `Set(v)`: store `v`. -/
def Value.Set (m : Value) (v : Float64) : Value := { m with val := v }

/-- Method `Inc()`: add one, in `float64` arithmetic (the client the source
is written against, whose counters still have `Set`, keeps every metric
value as one `float64` and increments it by a `float64` addition). -/
def Value.Inc (m : Value) : Value := { m with val := float64Add m.val 1 }

/-- Method `Describe(ch)` of a scalar metric: send its one descriptor. -/
def Value.Describe (m : Value) : List Desc := [m.desc]

/-- Method `Collect(ch)` of a scalar metric: send its one value. -/
def Value.Collect (m : Value) : List Sample :=
  [{ name := m.desc.fqName, labels := [], value := m.val }]

/-- A label-keyed metric family of the Prometheus client (the common
implementation of `prometheus.CounterVec` and `prometheus.GaugeVec`) with one
variable label: its descriptor and one child value per label value seen. -/
structure MetricVec where
  desc : Desc
  children : List (String × Float64)
  deriving DecidableEq, Repr

abbrev CounterVec := MetricVec
abbrev GaugeVec := MetricVec

/-- Model of `prometheus.NewCounterVec`: no children yet. -/
def NewCounterVec (opts : Opts) (labelNames : List String) : CounterVec :=
  { desc := { fqName := BuildFQName opts.Namespace opts.Subsystem opts.Name,
              help := opts.Help, variableLabels := labelNames },
    children := [] }

/-- Model of `prometheus.NewGaugeVec`: no children yet. -/
def NewGaugeVec (opts : Opts) (labelNames : List String) : GaugeVec :=
  { desc := { fqName := BuildFQName opts.Namespace opts.Subsystem opts.Name,
              help := opts.Help, variableLabels := labelNames },
    children := [] }

/-- Store `v` in the child keyed `lv`, creating the child when there is
none. -/
def setChild : List (String × Float64) → String → Float64 → List (String × Float64)
  | [], lv, v => [(lv, v)]
  | (k, w) :: rest, lv, v =>
    if k = lv then (k, v) :: rest else (k, w) :: setChild rest lv v

/-- Method `WithLabelValues(lv)` as far as the vector is concerned: the
child of label value `lv` is created, with value 0, when there is none. -/
def MetricVec.WithLabelValues (m : MetricVec) (lv : String) : MetricVec :=
  { m with children :=
      if (List.lookup lv m.children).isSome then m.children else m.children ++ [(lv, 0)] }

/-- The call chain `vec.WithLabelValues(lv).Set(v)`: get or create the child
of label value `lv`, then store `v` in it. -/
def MetricVec.WithLabelValuesSet (m : MetricVec) (lv : String) (v : Float64) : MetricVec :=
  { m with children := setChild m.children lv v }

/-- Method `Reset()`: delete every child. -/
def MetricVec.Reset (m : MetricVec) : MetricVec := { m with children := [] }

/-- Method `Describe(ch)` of a metric family: send its one descriptor. -/
def MetricVec.Describe (m : MetricVec) : List Desc := [m.desc]

/-- Method `Collect(ch)` of a metric family: send one value per child,
labelled with the child's label value. -/
def MetricVec.Collect (m : MetricVec) : List Sample :=
  m.children.map fun c =>
    { name := m.desc.fqName, labels := m.desc.variableLabels.zip [c.1], value := c.2 }

/-- Current value of the child with label value `lv`, if there is one. -/
def MetricVec.child (m : MetricVec) (lv : String) : Option Float64 :=
  List.lookup lv m.children

/-- Label values that currently have a child. -/
def MetricVec.labelValues (m : MetricVec) : List String :=
  m.children.map Prod.fst

/-! ## The exporter -/

/-- The constant `namespace` of the source. -/
def metricNamespace : String := "faktory"

/-- The struct `Retries` of the source.  `cycles` is declared but never
initialised nor used. -/
structure Retries where
  cycles : Option Gauge := none
  enqueued : Gauge
  size : Gauge

/-- The struct `Tasks` of the source. -/
structure Tasks where
  retries : Retries

/-- The struct `Exporter` of the source, without the mutex and the Faktory
client: the embedding is sequential, and the answer of `client.Info()` is an
input of each cycle. -/
structure Exporter where
  up : Gauge
  scrapeDuration : Gauge
  totalScrapes : Counter
  failedScrapes : Counter
  commandCount : Counter
  connections : Gauge
  jobs : CounterVec
  totalQueues : Gauge
  tasks : Tasks
  queues : GaugeVec

/-- The parts of a parsed `url.URL` that `New` reads. -/
structure URL where
  Scheme : String
  Hostname : String
  Port : String
  Password : Option String

/-- The fields of `faktory.Server` that `New` assigns. -/
structure Server where
  Network : String
  Address : String

/-- The exporter value built by the struct literal in `New`. -/
def newExporter : Exporter :=
  { up := NewGauge
      { Namespace := metricNamespace, Name := "up",
        Help := "Was the last scrape of the Faktory instance successful?" },
    scrapeDuration := NewGauge
      { Namespace := metricNamespace, Subsystem := "exporter",
        Name := "scrape_duration_seconds",
        Help := "Duration of the scrape of metrics from the Faktory instance." },
    totalScrapes := NewCounter
      { Namespace := metricNamespace, Subsystem := "exporter",
        Name := "scrapes_total", Help := "Total Faktory scrapes." },
    failedScrapes := NewCounter
      { Namespace := metricNamespace, Subsystem := "exporter",
        Name := "scrape_failures_total", Help := "Total amount of scrape failures." },
    commandCount := NewCounter
      { Namespace := metricNamespace, Subsystem := "server",
        Name := "command_count",
        Help := "Number of commands which have been issued to the server." },
    connections := NewGauge
      { Namespace := metricNamespace, Subsystem := "server",
        Name := "connections", Help := "Number of currently connected clients." },
    jobs := NewCounterVec
      { Namespace := metricNamespace, Subsystem := "jobs",
        Name := "total", Help := "Total amount of jobs." } ["status"],
    totalQueues := NewGauge
      { Namespace := metricNamespace, Subsystem := "queues",
        Name := "total", Help := "Total amount of queues." },
    queues := NewGaugeVec
      { Namespace := metricNamespace, Subsystem := "queue",
        Name := "jobs", Help := "Number of jobs in every queue." } ["queue"],
    tasks := { retries := {
      enqueued := NewGauge
        { Namespace := metricNamespace, Subsystem := "tasks_retries",
          Name := "enqueued", Help := "Task retries enqueued." },
      size := NewGauge
        { Namespace := metricNamespace, Subsystem := "tasks_retries",
          Name := "size", Help := "Task retries size." } } } }

/-- The function `New`.  `urlParse` is `url.Parse` and `dial` is
`faktory.Dial` (given the server and the password); either may fail, and
`New` then returns that error. -/
def New (faktoryURL : String) (urlParse : String → Except String URL)
    (dial : Server → String → Except String Unit) : Except String Exporter :=
  match urlParse faktoryURL with
  | Except.error err => Except.error err
  | Except.ok uri =>
    let srv : Server := { Network := uri.Scheme, Address := uri.Hostname ++ ":" ++ uri.Port }
    let pwd : String := uri.Password.getD ""
    match dial srv pwd with
    | Except.error err => Except.error err
    | Except.ok _ => Except.ok newExporter

/-- The method `Describe`: the descriptors sent on the channel, in order. -/
def Describe (e : Exporter) : List Desc :=
  e.up.Describe ++ e.scrapeDuration.Describe ++ e.failedScrapes.Describe ++
  e.totalScrapes.Describe ++ e.commandCount.Describe ++ e.connections.Describe ++
  e.jobs.Describe ++ e.tasks.retries.enqueued.Describe ++ e.tasks.retries.size.Describe ++
  e.totalQueues.Describe ++ e.queues.Describe

/-- The method `reset`: resets the `jobs` vector. -/
def reset (e : Exporter) : Exporter :=
  { e with jobs := e.jobs.Reset }

/-- How a call of `scrape` ends: it returns its `error` result (`none` is
`nil`), or a failed unchecked type assertion panics. -/
inductive Completion where
  | returned (err : Option String)
  | panicked
  deriving DecidableEq, Repr

/-- The loop `for queue, jobs := range queues` at the end of `scrape`: sets
the child of every entry in turn, in the order of the list (which stands for
the order in which the Go runtime ranges over the map).  At an entry that is
not a number, `WithLabelValues(queue)` has already created the child when the
unchecked `jobs.(float64)` panics (`false` in the second component); the
children set so far stay. -/
def rangeQueues (g : GaugeVec) : GoMap → GaugeVec × Bool
  | [] => (g, true)
  | (queue, jobs) :: rest =>
    match jobs.assertFloat64 with
    | none => (g.WithLabelValues queue, false)
    | some f => rangeQueues (g.WithLabelValuesSet queue f) rest

/-- The body of `scrape` (everything but the deferred bookkeeping): the
exporter after the body and how the body ended.  `fetch` is the result of
`e.client.Info()`.  The debug dump of the document (`println`) is not part of
the state and is left out. -/
def scrapeBody (e : Exporter) (fetch : Except String GoMap) : Exporter × Completion :=
  match fetch with
  | Except.error err => (e, Completion.returned (some err))
  | Except.ok info =>
  -- Get server stats.
  match (info.index "server").assertMap with
  | none => (e, Completion.panicked)
  | some server =>
  match (server.index "command_count").assertFloat64 with
  | none => (e, Completion.returned (some "error getting command count"))
  | some commandCount =>
  match (server.index "connections").assertFloat64 with
  | none => (e, Completion.returned (some "error getting connections"))
  | some connections =>
  -- Get job and queue stats.
  match (info.index "faktory").assertMap with
  | none => (e, Completion.panicked)
  | some faktory =>
  match (faktory.index "total_enqueued").assertFloat64 with
  | none => (e, Completion.returned (some "error getting enqueued jobs"))
  | some enqueued =>
  match (faktory.index "total_failures").assertFloat64 with
  | none => (e, Completion.returned (some "error getting failed jobs"))
  | some failures =>
  match (faktory.index "total_processed").assertFloat64 with
  | none => (e, Completion.returned (some "error getting processed jobs"))
  | some processed =>
  match (faktory.index "total_queues").assertFloat64 with
  | none => (e, Completion.returned (some "error getting queues"))
  | some totalQueues =>
  match (faktory.index "tasks").assertMap with
  | none => (e, Completion.returned (some "error getting tasks"))
  | some tasks =>
  match (tasks.index "Retries").assertMap with
  | none => (e, Completion.returned (some "error getting retries"))
  | some retries =>
  -- Set all metrics.
  let e1 := { e with commandCount := e.commandCount.Set commandCount }
  let e2 := { e1 with connections := e1.connections.Set connections }
  let e3 := { e2 with jobs := e2.jobs.WithLabelValuesSet "enqueued" enqueued }
  let e4 := { e3 with jobs := e3.jobs.WithLabelValuesSet "failure" failures }
  let e5 := { e4 with jobs := e4.jobs.WithLabelValuesSet "processed" processed }
  match (retries.index "enqueued").assertFloat64 with
  | none => (e5, Completion.panicked)
  | some retriesEnqueued =>
  let e6 := { e5 with tasks := { retries :=
    { e5.tasks.retries with enqueued := e5.tasks.retries.enqueued.Set retriesEnqueued } } }
  match (retries.index "size").assertFloat64 with
  | none => (e6, Completion.panicked)
  | some retriesSize =>
  let e7 := { e6 with tasks := { retries :=
    { e6.tasks.retries with size := e6.tasks.retries.size.Set retriesSize } } }
  let e8 := { e7 with totalQueues := e7.totalQueues.Set totalQueues }
  match (faktory.index "queues").assertMap with
  | none => (e8, Completion.returned (some "error getting queue counts"))
  | some queues =>
  let r := rangeQueues e8.queues queues
  ({ e8 with queues := r.1 }, if r.2 then Completion.returned none else Completion.panicked)

/-- The deferred function of `scrape`, run when the body returns or panics.
`err` is the value of the named result at that moment: the returned error,
or `nil` when the body panicked (every panic site comes after `Info`
returned a nil error, and nothing assigns `err` in between).  `elapsed` is
`time.Since(begun).Seconds()`. -/
def scrapeDeferred (e : Exporter) (err : Option String) (elapsed : Float64) : Exporter :=
  let e1 := { e with scrapeDuration := e.scrapeDuration.Set elapsed }
  let e2 := { e1 with totalScrapes := e1.totalScrapes.Inc }
  match err with
  | some _ => { e2 with up := e2.up.Set 0, failedScrapes := e2.failedScrapes.Inc }
  | none => { e2 with up := e2.up.Set 1 }

/-- The error value the deferred function of `scrape` sees. -/
def Completion.err : Completion → Option String
  | Completion.returned err => err
  | Completion.panicked => none

/-- The method `scrape`: the body, then the deferred bookkeeping. -/
def scrape (e : Exporter) (fetch : Except String GoMap) (elapsed : Float64) :
    Exporter × Completion :=
  let r := scrapeBody e fetch
  (scrapeDeferred r.1 r.2.err elapsed, r.2)

/-- What one call of `Collect` leaves behind: the exporter state, the error
it logged, and the values sent on the channel (`none` when a panic left
`Collect` before anything was sent). -/
structure CollectResult where
  state : Exporter
  logged : Option String
  emitted : Option (List Sample)

/-- The method `Collect`: reset, scrape, log the error, send every metric. -/
def Collect (e : Exporter) (fetch : Except String GoMap) (elapsed : Float64) : CollectResult :=
  let e0 := reset e
  let r := scrape e0 fetch elapsed
  match r.2 with
  | Completion.panicked => { state := r.1, logged := none, emitted := none }
  | Completion.returned err =>
    let e1 := r.1
    { state := e1, logged := err,
      emitted := some (
        e1.up.Collect ++ e1.scrapeDuration.Collect ++ e1.failedScrapes.Collect ++
        e1.totalScrapes.Collect ++ e1.commandCount.Collect ++ e1.connections.Collect ++
        e1.jobs.Collect ++ e1.tasks.retries.enqueued.Collect ++ e1.tasks.retries.size.Collect ++
        e1.totalQueues.Collect ++ e1.queues.Collect) }

/-- What a run of `Main` amounts to: the exit status it returns, the error it
logged for a failed `New`, and whether the web server was started. -/
structure MainResult where
  exitStatus : Int
  loggedError : Option String
  served : Bool
  deriving DecidableEq, Repr

/-- The function `Main`: build the exporter; when `New` fails, log the error
and return; otherwise register it, serve until a signal or a server error,
and return. -/
def Main (faktoryURL : String) (urlParse : String → Except String URL)
    (dial : Server → String → Except String Unit) : MainResult :=
  match New faktoryURL urlParse dial with
  | Except.error err => { exitStatus := 0, loggedError := some err, served := false }
  | Except.ok _ => { exitStatus := 0, loggedError := none, served := true }

/-- Whether a call of `scrape` returned a non-nil error. -/
def Completion.isError : Completion → Bool
  | Completion.returned (some _) => true
  | _ => false

/-- The exporter after a sequence of `Collect` cycles, each given by the
answer of `client.Info()` and the time the scrape took. -/
def afterCycles (e : Exporter) (cycles : List (Except String GoMap × Float64)) : Exporter :=
  cycles.foldl (fun st c => (Collect st c.1 c.2).state) e

/-- An exporter whose two scrape counters have reached 2^53, the first whole
number whose successor is not a `float64`. -/
def saturatedExporter : Exporter :=
  { newExporter with
      totalScrapes := newExporter.totalScrapes.Set (2 ^ 53)
      failedScrapes := newExporter.failedScrapes.Set (2 ^ 53) }

/-! ## Concrete status documents -/

/-- The `server` section of the example document. -/
def serverDoc : GoMap :=
  [("command_count", Any.float64 42), ("connections", Any.float64 3)]

/-- The `faktory.tasks.Retries` section of the example document. -/
def retriesDoc : GoMap :=
  [("enqueued", Any.float64 1), ("size", Any.float64 4)]

/-- The `faktory.queues` section of the example document. -/
def queuesDoc : GoMap :=
  [("default", Any.float64 10), ("low", Any.float64 5)]

/-- A `faktory` section with the given `queues` value and `Retries` map. -/
def faktoryOf (queues : Any) (retries : GoMap) : GoMap :=
  [("total_enqueued", Any.float64 100), ("total_failures", Any.float64 2),
   ("total_processed", Any.float64 98), ("total_queues", Any.float64 2),
   ("queues", queues), ("tasks", Any.map [("Retries", Any.map retries)])]

/-- The `faktory` section of the example document. -/
def faktoryDoc : GoMap := faktoryOf (Any.map queuesDoc) retriesDoc

/-- The example document: every required field present and numeric. -/
def scenarioDoc : GoMap :=
  [("server", Any.map serverDoc), ("faktory", Any.map faktoryDoc)]

/-- The example document with the given queue sizes. -/
def docWithQueues (queues : GoMap) : GoMap :=
  [("server", Any.map serverDoc), ("faktory", Any.map (faktoryOf (Any.map queues) retriesDoc))]

/-- The example document without its `server` section. -/
def docNoServer : GoMap := [("faktory", Any.map faktoryDoc)]

/-- The example document without its `faktory` section. -/
def docNoFaktory : GoMap := [("server", Any.map serverDoc)]

/-- The example document without `faktory.tasks.Retries.enqueued`. -/
def docNoRetriesEnqueued : GoMap :=
  [("server", Any.map serverDoc),
   ("faktory", Any.map (faktoryOf (Any.map queuesDoc) [("size", Any.float64 4)]))]

/-- The example document without `faktory.tasks.Retries.size`. -/
def docNoRetriesSize : GoMap :=
  [("server", Any.map serverDoc),
   ("faktory", Any.map (faktoryOf (Any.map queuesDoc) [("enqueued", Any.float64 1)]))]

/-- The example document with a string as the size of queue `low`. -/
def docQueueSizeString : GoMap :=
  docWithQueues [("default", Any.float64 10), ("low", Any.string "5")]

/-- The example document without `faktory.queues`. -/
def docNoQueues : GoMap :=
  [("server", Any.map serverDoc),
   ("faktory", Any.map
     [("total_enqueued", Any.float64 100), ("total_failures", Any.float64 2),
      ("total_processed", Any.float64 98), ("total_queues", Any.float64 2),
      ("tasks", Any.map [("Retries", Any.map retriesDoc)])])]

/-! ## Lemmas on `float64` addition -/

/-- An integer rounds to itself. -/
theorem roundHalfEven_intCast (z : ℤ) : roundHalfEven (z : ℚ) = z := by
  simp [roundHalfEven]

/-- A multiple of its own unit in the last place is a `float64`: rounding
leaves it as it is. -/
theorem roundFloat64_of_int (q : ℚ) (z : ℤ) (h : q = z * 2 ^ ulpExponent q) :
    roundFloat64 q = q := by
  have hpos : (2 : ℚ) ^ ulpExponent q ≠ 0 := zpow_ne_zero _ (by norm_num)
  have hdiv : q / 2 ^ ulpExponent q = (z : ℚ) := by
    rw [div_eq_iff hpos]
    exact h
  unfold roundFloat64
  rw [hdiv, roundHalfEven_intCast]
  exact h.symm

/-- The unit in the last place at a whole number. -/
theorem ulpExponent_natCast (m : ℕ) : ulpExponent (m : ℚ) = (Nat.log 2 m : ℤ) - 52 := by
  unfold ulpExponent
  rw [Nat.abs_cast, Int.log_natCast]
  have h : (-1022 : ℤ) ≤ (Nat.log 2 m : ℤ) := by omega
  rw [max_eq_left h]

/-- Every whole number up to 2^53 is a `float64`. -/
theorem roundFloat64_natCast (m : ℕ) (hm : m ≤ 2 ^ 53) : roundFloat64 (m : ℚ) = m := by
  by_cases hk : Nat.log 2 m ≤ 52
  · apply roundFloat64_of_int _ ((m * 2 ^ (52 - Nat.log 2 m) : ℕ) : ℤ)
    rw [ulpExponent_natCast]
    have h2 : ((Nat.log 2 m : ℤ) - 52) = -((52 - Nat.log 2 m : ℕ) : ℤ) := by omega
    rw [h2, zpow_neg, zpow_natCast]
    push_cast
    field_simp
  · have hm0 : m ≠ 0 := by
      rintro rfl
      simp at hk
    have h1 : 2 ^ Nat.log 2 m ≤ m := Nat.pow_log_le_self 2 hm0
    have h2 : 2 ^ 53 ≤ 2 ^ Nat.log 2 m := Nat.pow_le_pow_right (by norm_num) (by omega)
    have h3 : m = 2 ^ 53 := le_antisymm hm (h2.trans h1)
    subst h3
    apply roundFloat64_of_int _ ((2 ^ 52 : ℕ) : ℤ)
    rw [ulpExponent_natCast, Nat.log_pow (by norm_num)]
    norm_num

/-- Below 2^53, adding one to a whole number is exact. -/
theorem float64Add_one_natCast (n : ℕ) (hn : n < 2 ^ 53) :
    float64Add (n : ℚ) 1 = (n : ℚ) + 1 := by
  have h := roundFloat64_natCast (n + 1) (by omega)
  push_cast at h
  exact h

/-- At 2^53 adding one changes nothing: 2^53 + 1 lies half way between the
`float64` numbers 2^53 and 2^53 + 2 and rounds to the even one. -/
theorem float64Add_one_saturated : float64Add (2 ^ 53) 1 = 2 ^ 53 := by
  have hu : ulpExponent ((2 : ℚ) ^ 53 + 1) = 1 := by
    have h := ulpExponent_natCast (2 ^ 53 + 1)
    have hl : Nat.log 2 (2 ^ 53 + 1) = 53 := by
      rw [Nat.log_eq_iff (by norm_num)]
      norm_num
    have hc : ((2 ^ 53 + 1 : ℕ) : ℚ) = 2 ^ 53 + 1 := by norm_num
    rw [hl, hc] at h
    rw [h]
    norm_num
  have hf : ⌊((2 : ℚ) ^ 53 + 1) / 2⌋ = 2 ^ 52 := by
    rw [Int.floor_eq_iff]
    norm_num
  unfold float64Add roundFloat64
  rw [hu]
  simp only [zpow_one]
  unfold roundHalfEven
  rw [hf]
  norm_num

/-! ## Lemmas on the metric operations -/

theorem lookup_setChild_self (l : List (String × Float64)) (lv : String) (v : Float64) :
    List.lookup lv (setChild l lv v) = some v := by
  induction l with
  | nil => simp [setChild, List.lookup]
  | cons hd tl ih =>
    obtain ⟨k, w⟩ := hd
    by_cases h : k = lv
    · simp [setChild, h, List.lookup]
    · have h2 : (lv == k) = false := by simpa using fun h3 => h h3.symm
      simp [setChild, h, List.lookup, h2, ih]

theorem lookup_setChild_of_ne (l : List (String × Float64)) (k lv : String) (v : Float64)
    (h : k ≠ lv) : List.lookup k (setChild l lv v) = List.lookup k l := by
  induction l with
  | nil =>
    have h2 : (k == lv) = false := by simpa using h
    simp [setChild, List.lookup, h2]
  | cons hd tl ih =>
    obtain ⟨k2, w⟩ := hd
    by_cases h3 : k2 = lv
    · subst h3
      have h2 : (k == k2) = false := by simpa using h
      simp [setChild, List.lookup, h2]
    · by_cases h4 : (k == k2) = true
      · simp [setChild, h3, List.lookup, h4]
      · simp only [Bool.not_eq_true] at h4
        simp [setChild, h3, List.lookup, h4, ih]

theorem mem_of_lookup_eq_some (l : List (String × Float64)) (k : String) (v : Float64)
    (h : List.lookup k l = some v) : (k, v) ∈ l := by
  induction l with
  | nil => simp [List.lookup] at h
  | cons hd tl ih =>
    obtain ⟨k2, w⟩ := hd
    by_cases h4 : (k == k2) = true
    · simp only [List.lookup, h4] at h
      have hk : k = k2 := by simpa using h4
      simp only [Option.some.injEq] at h
      simp [hk, h]
    · simp only [Bool.not_eq_true] at h4
      simp only [List.lookup, h4] at h
      exact List.mem_cons_of_mem _ (ih h)

theorem lookup_append_of_ne (l : List (String × Float64)) (k lv : String) (v : Float64)
    (h : k ≠ lv) : List.lookup k (l ++ [(lv, v)]) = List.lookup k l := by
  induction l with
  | nil =>
    have h2 : (k == lv) = false := by simpa using h
    simp [List.lookup, h2]
  | cons hd tl ih =>
    obtain ⟨k2, w⟩ := hd
    by_cases h4 : (k == k2) = true
    · simp [List.lookup, h4]
    · simp only [Bool.not_eq_true] at h4
      simp [List.lookup, h4, ih]

theorem WithLabelValues_child_of_ne (m : MetricVec) (k lv : String) (h : k ≠ lv) :
    (m.WithLabelValues lv).child k = m.child k := by
  simp only [MetricVec.WithLabelValues, MetricVec.child]
  split
  · rfl
  · exact lookup_append_of_ne _ _ _ _ h

/-- Setting a child that `WithLabelValues` has just created or found is what
`WithLabelValuesSet` does in one step. -/
theorem setChild_WithLabelValues (m : MetricVec) (lv : String) (v : Float64) :
    setChild (m.WithLabelValues lv).children lv v = (m.WithLabelValuesSet lv v).children := by
  obtain ⟨d, l⟩ := m
  simp only [MetricVec.WithLabelValues, MetricVec.WithLabelValuesSet]
  induction l with
  | nil => simp [setChild, List.lookup]
  | cons hd tl ih =>
    obtain ⟨k, w⟩ := hd
    by_cases h : k = lv
    · subst h
      simp [setChild, List.lookup]
    · have h2 : (lv == k) = false := by simpa using fun h3 => h h3.symm
      simp only [List.lookup, h2, setChild, h, if_false]
      split
      · rename_i hs
        simp [setChild, h]
      · rename_i hs
        simp only [hs, if_false, Bool.false_eq_true] at ih
        simp [setChild, h, ih]

theorem rangeQueues_desc (qs : GoMap) (g : GaugeVec) : (rangeQueues g qs).1.desc = g.desc := by
  induction qs generalizing g with
  | nil => rfl
  | cons hd tl ih =>
    obtain ⟨q, j⟩ := hd
    cases j <;> simp [rangeQueues, Any.assertFloat64, ih, MetricVec.WithLabelValuesSet,
      MetricVec.WithLabelValues]

theorem rangeQueues_complete (qs : GoMap) (g : GaugeVec)
    (hnum : ∀ kv ∈ qs, ∃ f, kv.2 = Any.float64 f) : (rangeQueues g qs).2 = true := by
  induction qs generalizing g with
  | nil => rfl
  | cons hd tl ih =>
    obtain ⟨q, j⟩ := hd
    obtain ⟨f, hf⟩ := hnum (q, j) (List.mem_cons_self _ _)
    simp only at hf
    subst hf
    simp only [rangeQueues, Any.assertFloat64]
    exact ih _ fun kv hkv => hnum kv (List.mem_cons_of_mem _ hkv)

theorem rangeQueues_child_of_not_mem (qs : GoMap) (g : GaugeVec) (k : String)
    (hk : k ∉ qs.map Prod.fst) : (rangeQueues g qs).1.child k = g.child k := by
  induction qs generalizing g with
  | nil => rfl
  | cons hd tl ih =>
    obtain ⟨q, j⟩ := hd
    simp only [List.map_cons, List.mem_cons, not_or] at hk
    cases j with
    | float64 f =>
      simp only [rangeQueues, Any.assertFloat64]
      rw [ih _ hk.2]
      exact lookup_setChild_of_ne _ _ _ _ hk.1
    | _ =>
      simp only [rangeQueues, Any.assertFloat64]
      exact WithLabelValues_child_of_ne _ _ _ hk.1

theorem rangeQueues_child (qs : GoMap) (g : GaugeVec)
    (hnum : ∀ kv ∈ qs, ∃ f, kv.2 = Any.float64 f) (hnodup : (qs.map Prod.fst).Nodup)
    (q : String) (f : Float64) (hmem : (q, Any.float64 f) ∈ qs) :
    (rangeQueues g qs).1.child q = some f := by
  induction qs generalizing g with
  | nil => simp at hmem
  | cons hd tl ih =>
    obtain ⟨q0, j0⟩ := hd
    obtain ⟨f0, hf0⟩ := hnum (q0, j0) (List.mem_cons_self _ _)
    simp only at hf0
    subst hf0
    simp only [List.map_cons, List.nodup_cons] at hnodup
    simp only [rangeQueues, Any.assertFloat64]
    rcases List.mem_cons.mp hmem with heq | htl
    · simp only [Prod.mk.injEq, Any.float64.injEq] at heq
      obtain ⟨rfl, rfl⟩ := heq
      rw [rangeQueues_child_of_not_mem _ _ _ hnodup.1]
      exact lookup_setChild_self _ _ _
    · exact ih _ (fun kv hkv => hnum kv (List.mem_cons_of_mem _ hkv)) hnodup.2 htl

/-! ## Lemmas on `scrape` -/

theorem Completion.isError_eq (c : Completion) : c.isError = c.err.isSome := by
  cases c with
  | panicked => rfl
  | returned err => cases err <;> rfl

/-- The body of `scrape` never touches the four bookkeeping metrics. -/
theorem scrapeBody_frame (e : Exporter) (fetch : Except String GoMap) :
    (scrapeBody e fetch).1.up = e.up ∧
    (scrapeBody e fetch).1.scrapeDuration = e.scrapeDuration ∧
    (scrapeBody e fetch).1.totalScrapes = e.totalScrapes ∧
    (scrapeBody e fetch).1.failedScrapes = e.failedScrapes := by
  unfold scrapeBody
  repeat' split
  all_goals simp

/-- What the deferred function of `scrape` does to the bookkeeping metrics. -/
theorem scrapeDeferred_bookkeeping (e : Exporter) (err : Option String) (elapsed : Float64) :
    (scrapeDeferred e err elapsed).totalScrapes.val = float64Add e.totalScrapes.val 1 ∧
    (scrapeDeferred e err elapsed).failedScrapes.val
      = (if err.isSome then float64Add e.failedScrapes.val 1 else e.failedScrapes.val) ∧
    (scrapeDeferred e err elapsed).up.val = (if err.isSome then 0 else 1) ∧
    (scrapeDeferred e err elapsed).scrapeDuration.val = elapsed := by
  cases err <;> simp [scrapeDeferred, Value.Inc, Value.Set]

/-- The deferred function of `scrape` leaves the Faktory metrics alone. -/
theorem scrapeDeferred_frame (e : Exporter) (err : Option String) (elapsed : Float64) :
    (scrapeDeferred e err elapsed).commandCount = e.commandCount ∧
    (scrapeDeferred e err elapsed).connections = e.connections ∧
    (scrapeDeferred e err elapsed).jobs = e.jobs ∧
    (scrapeDeferred e err elapsed).totalQueues = e.totalQueues ∧
    (scrapeDeferred e err elapsed).tasks = e.tasks ∧
    (scrapeDeferred e err elapsed).queues = e.queues := by
  cases err <;> simp [scrapeDeferred]

/-- On a document with every required field, the body of `scrape` sets every
metric and returns nil. -/
theorem scrapeBody_valid (e : Exporter) (info server faktory tasks retries queues : GoMap)
    (cc conn enq fail proc tq renq rsize : Float64)
    (hserver : info.index "server" = Any.map server)
    (hcc : server.index "command_count" = Any.float64 cc)
    (hconn : server.index "connections" = Any.float64 conn)
    (hfaktory : info.index "faktory" = Any.map faktory)
    (henq : faktory.index "total_enqueued" = Any.float64 enq)
    (hfail : faktory.index "total_failures" = Any.float64 fail)
    (hproc : faktory.index "total_processed" = Any.float64 proc)
    (htq : faktory.index "total_queues" = Any.float64 tq)
    (htasks : faktory.index "tasks" = Any.map tasks)
    (hretries : tasks.index "Retries" = Any.map retries)
    (hrenq : retries.index "enqueued" = Any.float64 renq)
    (hrsize : retries.index "size" = Any.float64 rsize)
    (hqueues : faktory.index "queues" = Any.map queues)
    (hqnum : ∀ kv ∈ queues, ∃ f, kv.2 = Any.float64 f) :
    scrapeBody e (Except.ok info) =
      ({ e with
          commandCount := e.commandCount.Set cc
          connections := e.connections.Set conn
          jobs := ((e.jobs.WithLabelValuesSet "enqueued" enq).WithLabelValuesSet
            "failure" fail).WithLabelValuesSet "processed" proc
          tasks := { retries := { e.tasks.retries with
            enqueued := e.tasks.retries.enqueued.Set renq
            size := e.tasks.retries.size.Set rsize } }
          totalQueues := e.totalQueues.Set tq
          queues := (rangeQueues e.queues queues).1 },
        Completion.returned none) := by
  simp [scrapeBody, hserver, hcc, hconn, hfaktory, henq, hfail, hproc, htq, htasks, hretries,
    hrenq, hrsize, hqueues, Any.assertMap, Any.assertFloat64, rangeQueues_complete _ _ hqnum]

/-- An error returned by the body of `scrape` for a fetched document is one of
nine messages, and unless it is the one for `faktory.queues` no metric was
set before it. -/
theorem scrapeBody_error (e : Exporter) (info : GoMap) (msg : String)
    (h : (scrapeBody e (Except.ok info)).2 = Completion.returned (some msg)) :
    msg ∈ ["error getting command count", "error getting connections",
      "error getting enqueued jobs", "error getting failed jobs",
      "error getting processed jobs", "error getting queues", "error getting tasks",
      "error getting retries", "error getting queue counts"] ∧
    (msg ≠ "error getting queue counts" → (scrapeBody e (Except.ok info)).1 = e) := by
  unfold scrapeBody at h ⊢
  repeat' split at h
  all_goals first
    | (exfalso; simp at h; done)
    | (simp only [Completion.returned.injEq, Option.some.injEq] at h
       subst h
       simp_all)
    | (exfalso; dsimp only at h; split at h <;> simp at h)

/-! ## Lemmas on the descriptors -/

theorem scrapeBody_Describe (e : Exporter) (fetch : Except String GoMap) :
    Describe (scrapeBody e fetch).1 = Describe e := by
  unfold scrapeBody
  repeat' split
  all_goals simp [Describe, Value.Describe, MetricVec.Describe, Value.Set,
    MetricVec.WithLabelValuesSet, rangeQueues_desc]

theorem scrapeDeferred_Describe (e : Exporter) (err : Option String) (elapsed : Float64) :
    Describe (scrapeDeferred e err elapsed) = Describe e := by
  cases err <;> rfl

theorem Collect_Describe (e : Exporter) (fetch : Except String GoMap) (elapsed : Float64) :
    Describe (Collect e fetch elapsed).state = Describe e := by
  have h : (Collect e fetch elapsed).state = (scrape (reset e) fetch elapsed).1 := by
    simp only [Collect]
    split <;> rfl
  rw [h]
  simp only [scrape]
  rw [scrapeDeferred_Describe, scrapeBody_Describe]
  rfl

theorem afterCycles_Describe (cycles : List (Except String GoMap × Float64)) (e : Exporter) :
    Describe (afterCycles e cycles) = Describe e := by
  induction cycles generalizing e with
  | nil => rfl
  | cons c rest ih =>
    simp only [afterCycles, List.foldl_cons]
    exact (ih _).trans (Collect_Describe e c.1 c.2)

theorem Describe_eq (a b : Exporter) (h : Describe a = Describe b) :
    a.up.desc = b.up.desc ∧ a.scrapeDuration.desc = b.scrapeDuration.desc ∧
    a.failedScrapes.desc = b.failedScrapes.desc ∧ a.totalScrapes.desc = b.totalScrapes.desc ∧
    a.commandCount.desc = b.commandCount.desc ∧ a.connections.desc = b.connections.desc ∧
    a.jobs.desc = b.jobs.desc ∧ a.tasks.retries.enqueued.desc = b.tasks.retries.enqueued.desc ∧
    a.tasks.retries.size.desc = b.tasks.retries.size.desc ∧
    a.totalQueues.desc = b.totalQueues.desc ∧ a.queues.desc = b.queues.desc := by
  simpa [Describe, Value.Describe, MetricVec.Describe] using h

/-- When `scrape` returns, `Collect` sends the value of every metric of the
state it leaves, in the order of the source. -/
theorem Collect_emitted_of_returned (e : Exporter) (fetch : Except String GoMap)
    (elapsed : Float64) (err : Option String)
    (hret : (scrape (reset e) fetch elapsed).2 = Completion.returned err) :
    (Collect e fetch elapsed).emitted = some (
      (Collect e fetch elapsed).state.up.Collect ++
      (Collect e fetch elapsed).state.scrapeDuration.Collect ++
      (Collect e fetch elapsed).state.failedScrapes.Collect ++
      (Collect e fetch elapsed).state.totalScrapes.Collect ++
      (Collect e fetch elapsed).state.commandCount.Collect ++
      (Collect e fetch elapsed).state.connections.Collect ++
      (Collect e fetch elapsed).state.jobs.Collect ++
      (Collect e fetch elapsed).state.tasks.retries.enqueued.Collect ++
      (Collect e fetch elapsed).state.tasks.retries.size.Collect ++
      (Collect e fetch elapsed).state.totalQueues.Collect ++
      (Collect e fetch elapsed).state.queues.Collect) := by
  simp only [Collect, hret]

/-! ## The claims -/

/-- Claim C1.  For every status document in which `server.command_count`,
`server.connections`, `faktory.total_enqueued`, `faktory.total_failures`,
`faktory.total_processed`, `faktory.total_queues`,
`faktory.tasks.Retries.enqueued` and `faktory.tasks.Retries.size` are numbers
and `faktory.queues` maps queue names (one entry per name, as in a Go map) to
numbers, a `Collect` cycle whose fetch returns that document ends with
`scrape` returning nil, logs nothing, and sends the metric values; in the
state after the cycle and among the values sent, `up` is 1 and
`server_command_count`, `server_connections`, the three `jobs_total` statuses,
`queues_total`, `tasks_retries_enqueued`, `tasks_retries_size` and
`queue_jobs` of every queue of the document are exactly the numbers of the
document. -/
theorem Collect_valid_document (e : Exporter) (info server faktory tasks retries queues : GoMap)
    (cc conn enq fail proc tq renq rsize elapsed : Float64)
    (hserver : info.index "server" = Any.map server)
    (hcc : server.index "command_count" = Any.float64 cc)
    (hconn : server.index "connections" = Any.float64 conn)
    (hfaktory : info.index "faktory" = Any.map faktory)
    (henq : faktory.index "total_enqueued" = Any.float64 enq)
    (hfail : faktory.index "total_failures" = Any.float64 fail)
    (hproc : faktory.index "total_processed" = Any.float64 proc)
    (htq : faktory.index "total_queues" = Any.float64 tq)
    (htasks : faktory.index "tasks" = Any.map tasks)
    (hretries : tasks.index "Retries" = Any.map retries)
    (hrenq : retries.index "enqueued" = Any.float64 renq)
    (hrsize : retries.index "size" = Any.float64 rsize)
    (hqueues : faktory.index "queues" = Any.map queues)
    (hqnum : ∀ kv ∈ queues, ∃ f, kv.2 = Any.float64 f)
    (hqnodup : (queues.map Prod.fst).Nodup) :
    (scrape (reset e) (Except.ok info) elapsed).2 = Completion.returned none ∧
    ∃ st samples,
      Collect e (Except.ok info) elapsed = { state := st, logged := none, emitted := some samples } ∧
      st.up.val = 1 ∧
      st.commandCount.val = cc ∧
      st.connections.val = conn ∧
      st.jobs.children = [("enqueued", enq), ("failure", fail), ("processed", proc)] ∧
      st.totalQueues.val = tq ∧
      st.tasks.retries.enqueued.val = renq ∧
      st.tasks.retries.size.val = rsize ∧
      (∀ q f, (q, Any.float64 f) ∈ queues → st.queues.child q = some f) ∧
      { name := e.up.desc.fqName, labels := [], value := 1 } ∈ samples ∧
      { name := e.commandCount.desc.fqName, labels := [], value := cc } ∈ samples ∧
      { name := e.connections.desc.fqName, labels := [], value := conn } ∈ samples ∧
      { name := e.jobs.desc.fqName, labels := e.jobs.desc.variableLabels.zip ["enqueued"],
        value := enq } ∈ samples ∧
      { name := e.jobs.desc.fqName, labels := e.jobs.desc.variableLabels.zip ["failure"],
        value := fail } ∈ samples ∧
      { name := e.jobs.desc.fqName, labels := e.jobs.desc.variableLabels.zip ["processed"],
        value := proc } ∈ samples ∧
      { name := e.totalQueues.desc.fqName, labels := [], value := tq } ∈ samples ∧
      { name := e.tasks.retries.enqueued.desc.fqName, labels := [], value := renq } ∈ samples ∧
      { name := e.tasks.retries.size.desc.fqName, labels := [], value := rsize } ∈ samples ∧
      (∀ q f, (q, Any.float64 f) ∈ queues →
        { name := e.queues.desc.fqName, labels := e.queues.desc.variableLabels.zip [q],
          value := f } ∈ samples) := by
  have hbody := scrapeBody_valid (reset e) info server faktory tasks retries queues
    cc conn enq fail proc tq renq rsize hserver hcc hconn hfaktory henq hfail hproc htq htasks
    hretries hrenq hrsize hqueues hqnum
  have hchild : ∀ q f, (q, Any.float64 f) ∈ queues →
      (rangeQueues e.queues queues).1.child q = some f :=
    fun q f h => rangeQueues_child queues e.queues hqnum hqnodup q f h
  refine ⟨by simp [scrape, hbody], ?_⟩
  refine ⟨_, _, by simp only [Collect, scrape, hbody, Completion.err]; rfl, ?_⟩
  simp [scrapeDeferred, reset, Value.Set, Value.Inc, Value.Collect, MetricVec.Collect,
    MetricVec.Reset, MetricVec.WithLabelValuesSet, setChild, rangeQueues_desc]
  refine ⟨hchild, ?_⟩
  intro q f h
  iterate 12 right
  exact ⟨q, mem_of_lookup_eq_some _ _ _ (hchild q f h), rfl⟩

/-- Claim C1 at the example document (command count 42, 3 connections,
queues `default` 10 and `low` 5) on a freshly built exporter. -/
theorem Collect_valid_document_witness :
    (scrape (reset newExporter) (Except.ok scenarioDoc) 0).2 = Completion.returned none ∧
    ∃ st samples,
      Collect newExporter (Except.ok scenarioDoc) 0
        = { state := st, logged := none, emitted := some samples } ∧
      st.up.val = 1 ∧
      st.commandCount.val = 42 ∧
      st.connections.val = 3 ∧
      st.jobs.children = [("enqueued", 100), ("failure", 2), ("processed", 98)] ∧
      st.totalQueues.val = 2 ∧
      st.tasks.retries.enqueued.val = 1 ∧
      st.tasks.retries.size.val = 4 ∧
      (∀ q f, (q, Any.float64 f) ∈ queuesDoc → st.queues.child q = some f) ∧
      { name := newExporter.up.desc.fqName, labels := [], value := 1 } ∈ samples ∧
      { name := newExporter.commandCount.desc.fqName, labels := [], value := 42 } ∈ samples ∧
      { name := newExporter.connections.desc.fqName, labels := [], value := 3 } ∈ samples ∧
      { name := newExporter.jobs.desc.fqName,
        labels := newExporter.jobs.desc.variableLabels.zip ["enqueued"],
        value := 100 } ∈ samples ∧
      { name := newExporter.jobs.desc.fqName,
        labels := newExporter.jobs.desc.variableLabels.zip ["failure"],
        value := 2 } ∈ samples ∧
      { name := newExporter.jobs.desc.fqName,
        labels := newExporter.jobs.desc.variableLabels.zip ["processed"],
        value := 98 } ∈ samples ∧
      { name := newExporter.totalQueues.desc.fqName, labels := [], value := 2 } ∈ samples ∧
      { name := newExporter.tasks.retries.enqueued.desc.fqName, labels := [],
        value := 1 } ∈ samples ∧
      { name := newExporter.tasks.retries.size.desc.fqName, labels := [],
        value := 4 } ∈ samples ∧
      (∀ q f, (q, Any.float64 f) ∈ queuesDoc →
        { name := newExporter.queues.desc.fqName,
          labels := newExporter.queues.desc.variableLabels.zip [q],
          value := f } ∈ samples) :=
  Collect_valid_document newExporter scenarioDoc serverDoc faktoryDoc
    [("Retries", Any.map retriesDoc)] retriesDoc queuesDoc 42 3 100 2 98 2 1 4 0
    rfl rfl rfl rfl rfl rfl rfl rfl rfl rfl rfl rfl rfl
    (by simp [queuesDoc]) (by decide)

/-- Claim C2, evaluated on the code.  `reset` clears only `jobs`, so the
`queue_jobs` children outlive the cycle that set them: after a cycle with
queues `a` 3 and `b` 5, a cycle with only queue `a` 3 still holds and sends
`queue_jobs` for `b` (value 5), and a cycle whose fetch fails still holds
and sends `queue_jobs` for both `a` and `b`. -/
theorem Collect_keeps_stale_queue_label :
    (Collect (Collect newExporter (Except.ok (docWithQueues
        [("a", Any.float64 3), ("b", Any.float64 5)])) 0).state
      (Except.ok (docWithQueues [("a", Any.float64 3)])) 0).state.queues.labelValues
      = ["a", "b"] ∧
    (∃ samples,
      (Collect (Collect newExporter (Except.ok (docWithQueues
          [("a", Any.float64 3), ("b", Any.float64 5)])) 0).state
        (Except.ok (docWithQueues [("a", Any.float64 3)])) 0).emitted = some samples ∧
      { name := "faktory_queue_jobs", labels := [("queue", "b")], value := 5 } ∈ samples) ∧
    (∃ samples,
      (Collect (Collect newExporter (Except.ok (docWithQueues
          [("a", Any.float64 3), ("b", Any.float64 5)])) 0).state
        (Except.error "connection refused") 0).emitted = some samples ∧
      { name := "faktory_queue_jobs", labels := [("queue", "a")], value := 3 } ∈ samples ∧
      { name := "faktory_queue_jobs", labels := [("queue", "b")], value := 5 } ∈ samples) :=
  ⟨by decide, ⟨_, rfl, by decide⟩, ⟨_, rfl, by decide, by decide⟩⟩

/-- Claim C3, evaluated on the code.  Five of the required fields are read
with an unchecked type assertion: on the example document without its
`server` section, without its `faktory` section, without
`Retries.enqueued`, without `Retries.size`, or with a string as a queue
size, `scrape` does not return an error but panics, in every exporter
state. -/
theorem scrape_panics_on_unchecked_fields (e : Exporter) (elapsed : Float64) :
    (scrape e (Except.ok docNoServer) elapsed).2 = Completion.panicked ∧
    (scrape e (Except.ok docNoFaktory) elapsed).2 = Completion.panicked ∧
    (scrape e (Except.ok docNoRetriesEnqueued) elapsed).2 = Completion.panicked ∧
    (scrape e (Except.ok docNoRetriesSize) elapsed).2 = Completion.panicked ∧
    (scrape e (Except.ok docQueueSizeString) elapsed).2 = Completion.panicked :=
  ⟨rfl, rfl, rfl, rfl, rfl⟩

/-- Claim C4, evaluated on the code.  When the fetch succeeds with an empty
document, the unchecked assertion on `info["server"]` panics: `Collect`
sends no metric value at all, and the deferred bookkeeping has set `up` to
1 although the cycle failed, in every exporter state. -/
theorem Collect_panics_on_empty_document (e : Exporter) (elapsed : Float64) :
    (Collect e (Except.ok []) elapsed).emitted = none ∧
    (Collect e (Except.ok []) elapsed).state.up.val = 1 :=
  ⟨rfl, rfl⟩

/-- Claim C5, evaluated on the code.  `faktory.queues` is checked only after
the scalar metrics have been set: on the example document without
`faktory.queues`, `scrape` returns the error "error getting queue counts",
yet the cycle has changed `server_command_count` from 0 to 42 (and likewise
the other scalar metrics) and has set the three `jobs_total` values. -/
theorem scrape_error_after_partial_update :
    (scrape (reset newExporter) (Except.ok docNoQueues) 0).2
      = Completion.returned (some "error getting queue counts") ∧
    newExporter.commandCount.val = 0 ∧
    (Collect newExporter (Except.ok docNoQueues) 0).state.commandCount.val = 42 ∧
    (Collect newExporter (Except.ok docNoQueues) 0).state.connections.val = 3 ∧
    (Collect newExporter (Except.ok docNoQueues) 0).state.totalQueues.val = 2 ∧
    (Collect newExporter (Except.ok docNoQueues) 0).state.tasks.retries.enqueued.val = 1 ∧
    (Collect newExporter (Except.ok docNoQueues) 0).state.tasks.retries.size.val = 4 ∧
    (Collect newExporter (Except.ok docNoQueues) 0).state.jobs.children
      = [("enqueued", 100), ("failure", 2), ("processed", 98)] := by
  decide

/-- Claim C6, as stated, fails at a saturated counter.  The counters are
`float64` values: with `exporter_scrapes_total` and
`exporter_scrape_failures_total` at 2^53, a call of `scrape` that returns an
error leaves both at 2^53 instead of increasing them by 1 (it still sets
`up` to 0). -/
theorem scrape_saturated_counters :
    saturatedExporter.totalScrapes.val = 2 ^ 53 ∧
    saturatedExporter.failedScrapes.val = 2 ^ 53 ∧
    (scrape saturatedExporter (Except.error "connection refused") 0).2.isError = true ∧
    (scrape saturatedExporter (Except.error "connection refused") 0).1.totalScrapes.val
      = 2 ^ 53 ∧
    (scrape saturatedExporter (Except.error "connection refused") 0).1.failedScrapes.val
      = 2 ^ 53 ∧
    (scrape saturatedExporter (Except.error "connection refused") 0).1.totalScrapes.val
      ≠ saturatedExporter.totalScrapes.val + 1 ∧
    (scrape saturatedExporter (Except.error "connection refused") 0).1.failedScrapes.val
      ≠ saturatedExporter.failedScrapes.val + 1 := by
  have ht : saturatedExporter.totalScrapes.val = 2 ^ 53 := rfl
  have hf : saturatedExporter.failedScrapes.val = 2 ^ 53 := rfl
  have h1 : (scrape saturatedExporter (Except.error "connection refused") 0).1.totalScrapes.val
      = 2 ^ 53 := by
    show float64Add saturatedExporter.totalScrapes.val 1 = 2 ^ 53
    rw [ht]
    exact float64Add_one_saturated
  have h2 : (scrape saturatedExporter (Except.error "connection refused") 0).1.failedScrapes.val
      = 2 ^ 53 := by
    show float64Add saturatedExporter.failedScrapes.val 1 = 2 ^ 53
    rw [hf]
    exact float64Add_one_saturated
  refine ⟨ht, hf, rfl, h1, h2, ?_, ?_⟩
  · rw [h1, ht]
    norm_num
  · rw [h2, hf]
    norm_num

/-- Claim C6, amended.  For every exporter state in which
`exporter_scrapes_total` and `exporter_scrape_failures_total` are whole
numbers below 2^53, and every outcome of the fetch and of the decoding (a
fetch error, any document, a panic included), one call of `scrape` increases
`exporter_scrapes_total` by exactly 1; when `scrape` returns an error it
increases `exporter_scrape_failures_total` by exactly 1 and sets `up` to 0,
and otherwise it leaves `exporter_scrape_failures_total` unchanged and sets
`up` to 1. -/
theorem scrape_bookkeeping (e : Exporter) (fetch : Except String GoMap) (elapsed : Float64)
    (n k : ℕ) (hn : n < 2 ^ 53) (hk : k < 2 ^ 53)
    (htotal : e.totalScrapes.val = n) (hfailed : e.failedScrapes.val = k) :
    (scrape e fetch elapsed).1.totalScrapes.val = e.totalScrapes.val + 1 ∧
    (scrape e fetch elapsed).1.failedScrapes.val
      = e.failedScrapes.val + (if (scrape e fetch elapsed).2.isError then 1 else 0) ∧
    (scrape e fetch elapsed).1.up.val
      = (if (scrape e fetch elapsed).2.isError then 0 else 1) := by
  obtain ⟨-, -, h3, h4⟩ := scrapeBody_frame e fetch
  obtain ⟨d1, d2, d3, -⟩ := scrapeDeferred_bookkeeping (scrapeBody e fetch).1
    (scrapeBody e fetch).2.err elapsed
  simp only [scrape, Completion.isError_eq]
  rw [d1, d2, d3, h3, h4, htotal, hfailed, float64Add_one_natCast n hn,
    float64Add_one_natCast k hk]
  refine ⟨rfl, ?_, rfl⟩
  split <;> simp

/-- Claim C6, amended, on a freshly built exporter (both counters 0) and a
failing fetch: both counters become 1 and `up` becomes 0. -/
theorem scrape_bookkeeping_witness :
    ((0 : ℕ) < 2 ^ 53 ∧ newExporter.totalScrapes.val = (0 : ℕ) ∧
      newExporter.failedScrapes.val = (0 : ℕ)) ∧
    (scrape newExporter (Except.error "connection refused") 0).1.totalScrapes.val
      = newExporter.totalScrapes.val + 1 ∧
    (scrape newExporter (Except.error "connection refused") 0).1.failedScrapes.val
      = newExporter.failedScrapes.val +
        (if (scrape newExporter (Except.error "connection refused") 0).2.isError
          then 1 else 0) ∧
    (scrape newExporter (Except.error "connection refused") 0).1.up.val
      = (if (scrape newExporter (Except.error "connection refused") 0).2.isError
          then 0 else 1) :=
  ⟨⟨by norm_num, by norm_num [newExporter, NewCounter], by norm_num [newExporter, NewCounter]⟩,
   scrape_bookkeeping newExporter (Except.error "connection refused") 0 0 0
     (by norm_num) (by norm_num) (by norm_num [newExporter, NewCounter])
     (by norm_num [newExporter, NewCounter])⟩

/-- Claim C7, as stated, fails at a saturated counter.  With
`exporter_scrape_failures_total` at 2^53, a `Collect` cycle whose fetch
fails sets `up` to 0 but leaves the failure counter at 2^53 instead of
increasing it by 1. -/
theorem Collect_saturated_failure_counter :
    saturatedExporter.failedScrapes.val = 2 ^ 53 ∧
    (Collect saturatedExporter (Except.error "connection refused") 0).logged
      = some "connection refused" ∧
    (Collect saturatedExporter (Except.error "connection refused") 0).state.up.val = 0 ∧
    (Collect saturatedExporter (Except.error "connection refused") 0).state.failedScrapes.val
      = 2 ^ 53 ∧
    (Collect saturatedExporter (Except.error "connection refused") 0).state.failedScrapes.val
      ≠ saturatedExporter.failedScrapes.val + 1 := by
  have hf : saturatedExporter.failedScrapes.val = 2 ^ 53 := rfl
  have h2 : (Collect saturatedExporter (Except.error "connection refused")
      0).state.failedScrapes.val = 2 ^ 53 := by
    show float64Add saturatedExporter.failedScrapes.val 1 = 2 ^ 53
    rw [hf]
    exact float64Add_one_saturated
  refine ⟨hf, rfl, rfl, h2, ?_⟩
  rw [h2, hf]
  norm_num

/-- Claim C7, amended.  For every exporter state in which
`exporter_scrape_failures_total` is a whole number below 2^53, a `Collect`
cycle whose fetch fails logs the fetch error and leaves
`server_command_count`, `server_connections`, `queues_total`,
`tasks_retries_enqueued` and `tasks_retries_size` as they were before the
cycle, in the state and among the values sent, while it sets `up` to 0 and
increases `exporter_scrape_failures_total` by 1. -/
theorem Collect_fetch_failure (e : Exporter) (msg : String) (elapsed : Float64)
    (k : ℕ) (hk : k < 2 ^ 53) (hfailed : e.failedScrapes.val = k) :
    ∃ st samples,
      Collect e (Except.error msg) elapsed
        = { state := st, logged := some msg, emitted := some samples } ∧
      st.commandCount = e.commandCount ∧
      st.connections = e.connections ∧
      st.totalQueues = e.totalQueues ∧
      st.tasks.retries.enqueued = e.tasks.retries.enqueued ∧
      st.tasks.retries.size = e.tasks.retries.size ∧
      st.up.val = 0 ∧
      st.failedScrapes.val = e.failedScrapes.val + 1 ∧
      (∀ s ∈ e.commandCount.Collect ++ e.connections.Collect ++ e.totalQueues.Collect ++
          e.tasks.retries.enqueued.Collect ++ e.tasks.retries.size.Collect, s ∈ samples) ∧
      { name := e.up.desc.fqName, labels := [], value := 0 } ∈ samples := by
  have hinc : (scrape (reset e) (Except.error msg) elapsed).1.failedScrapes.val
      = e.failedScrapes.val + 1 := by
    show float64Add e.failedScrapes.val 1 = e.failedScrapes.val + 1
    rw [hfailed]
    exact float64Add_one_natCast k hk
  refine ⟨_, _, rfl, rfl, rfl, rfl, rfl, rfl, rfl, hinc, ?_, ?_⟩
  · intro s hs
    simp only [List.mem_append, List.mem_singleton, Value.Collect] at hs
    simp only [scrape, scrapeBody, scrapeDeferred, reset, Completion.err, Value.Collect,
      Value.Set, Value.Inc, MetricVec.Collect, MetricVec.Reset, List.mem_append,
      List.mem_singleton]
    tauto
  · simp [scrape, scrapeBody, scrapeDeferred, reset, Completion.err, Value.Collect,
      Value.Set, Value.Inc, MetricVec.Collect, MetricVec.Reset]

/-- Claim C7, amended, on a freshly built exporter (failure counter 0) and a
failing fetch. -/
theorem Collect_fetch_failure_witness :
    ((0 : ℕ) < 2 ^ 53 ∧ newExporter.failedScrapes.val = (0 : ℕ)) ∧
    ∃ st samples,
      Collect newExporter (Except.error "connection refused") 0
        = { state := st, logged := some "connection refused", emitted := some samples } ∧
      st.commandCount = newExporter.commandCount ∧
      st.connections = newExporter.connections ∧
      st.totalQueues = newExporter.totalQueues ∧
      st.tasks.retries.enqueued = newExporter.tasks.retries.enqueued ∧
      st.tasks.retries.size = newExporter.tasks.retries.size ∧
      st.up.val = 0 ∧
      st.failedScrapes.val = newExporter.failedScrapes.val + 1 ∧
      (∀ s ∈ newExporter.commandCount.Collect ++ newExporter.connections.Collect ++
          newExporter.totalQueues.Collect ++ newExporter.tasks.retries.enqueued.Collect ++
          newExporter.tasks.retries.size.Collect, s ∈ samples) ∧
      { name := newExporter.up.desc.fqName, labels := [], value := 0 } ∈ samples :=
  ⟨⟨by norm_num, by norm_num [newExporter, NewCounter]⟩,
   Collect_fetch_failure newExporter "connection refused" 0 0 (by norm_num)
     (by norm_num [newExporter, NewCounter])⟩

/-- Claim C8, as stated, fails where a label-keyed metric holds no label
value.  On a freshly built exporter whose fetch fails, `Describe` names
`jobs_total` and `queue_jobs`, but the cycle completes and sends no value of
either: the metrics sent are nine of the eleven described. -/
theorem Collect_omits_empty_families :
    "faktory_jobs_total" ∈ (Describe newExporter).map Desc.fqName ∧
    "faktory_queue_jobs" ∈ (Describe newExporter).map Desc.fqName ∧
    ∃ samples,
      (Collect newExporter (Except.error "connection refused") 0).emitted = some samples ∧
      samples.map Sample.name =
        ["faktory_up", "faktory_exporter_scrape_duration_seconds",
         "faktory_exporter_scrape_failures_total", "faktory_exporter_scrapes_total",
         "faktory_server_command_count", "faktory_server_connections",
         "faktory_tasks_retries_enqueued", "faktory_tasks_retries_size",
         "faktory_queues_total"] ∧
      "faktory_jobs_total" ∉ samples.map Sample.name ∧
      "faktory_queue_jobs" ∉ samples.map Sample.name :=
  ⟨by decide, by decide, _, rfl, by decide, by decide, by decide⟩

/-- Claim C8, amended.  `Describe` sends, for the exporter `New` builds and
after any sequence of `Collect` cycles, the same eleven descriptors: one for
each metric name of the exposed-metrics table under the namespace `faktory`,
and nothing else.  In every cycle in which `scrape` returns (with or without
an error), `Collect` sends values of these metrics and of no other: exactly
one value of each of the nine metrics without a variable label, and one
value of `jobs_total` and of `queue_jobs` for every label value the metric
holds, none when it holds no label value. -/
theorem Describe_static (cycles : List (Except String GoMap × Float64))
    (fetch : Except String GoMap) (elapsed : Float64) (err : Option String)
    (hret : (scrape (reset (afterCycles newExporter cycles)) fetch elapsed).2
      = Completion.returned err) :
    (Describe newExporter).map Desc.fqName =
      ["faktory_up", "faktory_exporter_scrape_duration_seconds",
       "faktory_exporter_scrape_failures_total", "faktory_exporter_scrapes_total",
       "faktory_server_command_count", "faktory_server_connections", "faktory_jobs_total",
       "faktory_tasks_retries_enqueued", "faktory_tasks_retries_size",
       "faktory_queues_total", "faktory_queue_jobs"] ∧
    ((Describe newExporter).map Desc.fqName).Perm
      ["faktory_up", "faktory_exporter_scrape_duration_seconds",
       "faktory_exporter_scrapes_total", "faktory_exporter_scrape_failures_total",
       "faktory_server_command_count", "faktory_server_connections", "faktory_jobs_total",
       "faktory_queues_total", "faktory_queue_jobs",
       "faktory_tasks_retries_enqueued", "faktory_tasks_retries_size"] ∧
    (∀ faktoryURL urlParse dial ex,
      New faktoryURL urlParse dial = Except.ok ex → Describe ex = Describe newExporter) ∧
    Describe (afterCycles newExporter cycles) = Describe newExporter ∧
    ∃ st samples,
      Collect (afterCycles newExporter cycles) fetch elapsed
        = { state := st, logged := err, emitted := some samples } ∧
      samples =
        [{ name := "faktory_up", labels := [], value := st.up.val },
         { name := "faktory_exporter_scrape_duration_seconds", labels := [],
           value := st.scrapeDuration.val },
         { name := "faktory_exporter_scrape_failures_total", labels := [],
           value := st.failedScrapes.val },
         { name := "faktory_exporter_scrapes_total", labels := [],
           value := st.totalScrapes.val },
         { name := "faktory_server_command_count", labels := [],
           value := st.commandCount.val },
         { name := "faktory_server_connections", labels := [],
           value := st.connections.val }] ++
        st.jobs.children.map (fun c =>
          { name := "faktory_jobs_total", labels := [("status", c.1)], value := c.2 }) ++
        [{ name := "faktory_tasks_retries_enqueued", labels := [],
           value := st.tasks.retries.enqueued.val },
         { name := "faktory_tasks_retries_size", labels := [],
           value := st.tasks.retries.size.val },
         { name := "faktory_queues_total", labels := [], value := st.totalQueues.val }] ++
        st.queues.children.map (fun c =>
          { name := "faktory_queue_jobs", labels := [("queue", c.1)], value := c.2 }) ∧
      (∀ s ∈ samples, s.name ∈ (Describe newExporter).map Desc.fqName) := by
  refine ⟨by decide, by decide, ?_, afterCycles_Describe cycles newExporter, ?_⟩
  · intro faktoryURL urlParse dial ex h
    simp only [New] at h
    split at h
    · simp at h
    · split at h
      · simp at h
      · simp only [Except.ok.injEq] at h
        rw [← h]
  · have hd := (Collect_Describe (afterCycles newExporter cycles) fetch elapsed).trans
      (afterCycles_Describe cycles newExporter)
    obtain ⟨h1, h2, h3, h4, h5, h6, h7, h8, h9, h10, h11⟩ := Describe_eq _ _ hd
    have hcol : Collect (afterCycles newExporter cycles) fetch elapsed
        = { state := (Collect (afterCycles newExporter cycles) fetch elapsed).state,
            logged := err,
            emitted := (Collect (afterCycles newExporter cycles) fetch elapsed).emitted } := by
      simp only [Collect, hret]
    rw [Collect_emitted_of_returned _ _ _ _ hret] at hcol
    refine ⟨_, _, hcol, ?_, ?_⟩
    · simp only [Value.Collect, MetricVec.Collect, h1, h2, h3, h4, h5, h6, h7, h8, h9, h10,
        h11]
      have n1 : newExporter.up.desc.fqName = "faktory_up" := by decide
      have n2 : newExporter.scrapeDuration.desc.fqName
          = "faktory_exporter_scrape_duration_seconds" := by decide
      have n3 : newExporter.failedScrapes.desc.fqName
          = "faktory_exporter_scrape_failures_total" := by decide
      have n4 : newExporter.totalScrapes.desc.fqName
          = "faktory_exporter_scrapes_total" := by decide
      have n5 : newExporter.commandCount.desc.fqName
          = "faktory_server_command_count" := by decide
      have n6 : newExporter.connections.desc.fqName = "faktory_server_connections" := by decide
      have n7 : newExporter.jobs.desc.fqName = "faktory_jobs_total" := by decide
      have n8 : newExporter.tasks.retries.enqueued.desc.fqName
          = "faktory_tasks_retries_enqueued" := by decide
      have n9 : newExporter.tasks.retries.size.desc.fqName
          = "faktory_tasks_retries_size" := by decide
      have n10 : newExporter.totalQueues.desc.fqName = "faktory_queues_total" := by decide
      have n11 : newExporter.queues.desc.fqName = "faktory_queue_jobs" := by decide
      have l7 : newExporter.jobs.desc.variableLabels = ["status"] := by decide
      have l11 : newExporter.queues.desc.variableLabels = ["queue"] := by decide
      simp [n1, n2, n3, n4, n5, n6, n7, n8, n9, n10, n11, l7, l11]
    · intro s hs
      simp only [Value.Collect, MetricVec.Collect, h1, h2, h3, h4, h5, h6, h7, h8, h9, h10,
        h11, List.mem_append, List.mem_singleton, List.mem_map] at hs
      rcases hs with ((((((((((h | h) | h) | h) | h) | h) | ⟨_, _, h⟩) | h) | h) | h) | ⟨_, _, h⟩)
      all_goals (subst h; dsimp only; decide)

/-- Claim C8, amended, on a freshly built exporter whose fetch fails: the
cycle sends the nine metrics without a variable label and nothing for the
two label-keyed metrics, which hold no label value. -/
theorem Describe_static_witness :
    (scrape (reset (afterCycles newExporter [])) (Except.error "connection refused") 0).2
      = Completion.returned (some "connection refused") ∧
    Describe (afterCycles newExporter []) = Describe newExporter ∧
    ∃ st samples,
      Collect (afterCycles newExporter []) (Except.error "connection refused") 0
        = { state := st, logged := some "connection refused", emitted := some samples } ∧
      samples =
        [{ name := "faktory_up", labels := [], value := st.up.val },
         { name := "faktory_exporter_scrape_duration_seconds", labels := [],
           value := st.scrapeDuration.val },
         { name := "faktory_exporter_scrape_failures_total", labels := [],
           value := st.failedScrapes.val },
         { name := "faktory_exporter_scrapes_total", labels := [],
           value := st.totalScrapes.val },
         { name := "faktory_server_command_count", labels := [],
           value := st.commandCount.val },
         { name := "faktory_server_connections", labels := [],
           value := st.connections.val }] ++
        st.jobs.children.map (fun c =>
          { name := "faktory_jobs_total", labels := [("status", c.1)], value := c.2 }) ++
        [{ name := "faktory_tasks_retries_enqueued", labels := [],
           value := st.tasks.retries.enqueued.val },
         { name := "faktory_tasks_retries_size", labels := [],
           value := st.tasks.retries.size.val },
         { name := "faktory_queues_total", labels := [], value := st.totalQueues.val }] ++
        st.queues.children.map (fun c =>
          { name := "faktory_queue_jobs", labels := [("queue", c.1)], value := c.2 }) ∧
      (∀ s ∈ samples, s.name ∈ (Describe newExporter).map Desc.fqName) :=
  ⟨rfl, (Describe_static [] (Except.error "connection refused") 0
      (some "connection refused") rfl).2.2.2⟩

/-- Claim C9, evaluated on the code.  When `New` fails, because the URL does
not parse or because the dial fails, `Main` logs the error and returns exit
status 0 (not a non-zero status), before any serving begins. -/
theorem Main_exit_status_zero_on_New_error (faktoryURL err : String) (uri : URL)
    (dial : Server → String → Except String Unit) :
    Main faktoryURL (fun _ => Except.error err) dial
      = { exitStatus := 0, loggedError := some err, served := false } ∧
    Main faktoryURL (fun _ => Except.ok uri) (fun _ _ => Except.error err)
      = { exitStatus := 0, loggedError := some err, served := false } :=
  ⟨rfl, rfl⟩

end FaktoryExporter
